import Mathlib

/-!
Shallow embedding of the Streamlit Neo4j Q&A app (`app.py`) and proofs of the
spec claims about it.

The app is glue code: it loads four environment variables, constructs a graph
client and an LLM client, assembles a few-shot prompt, and wires a two-tab
Streamlit UI (Home / Q&A and History) around a `GraphCypherQAChain`.  The
embedding below models each user-triggered handler as a pure function of the
widget inputs and of the outcome of the external calls (the QA chain invocation
and the graph query), and models the prompt assembly, including Python
`str.format` brace escaping, character by character.
-/

set_option autoImplicit false

namespace App

/-- A chat entry saved to `st.session_state.chat_history` (app.py line 130):
a `{"question": ..., "answer": ...}` dict. -/
structure ChatEntry where
  question : String
  answer : String
deriving Repr, DecidableEq

/-- Observable effects of one run of the "Get Answer" button handler
(app.py lines 123-132): the questions passed to `qa_chain.invoke`, the banner
shown by `st.success`, the banner shown by `st.error`, and the session history
list after the run. -/
structure QAOutput where
  invokeCalls : List String
  successBanner : Option String
  errorBanner : Option String
  history : List ChatEntry
deriving Repr, DecidableEq

/-- The "Get Answer" button handler (app.py lines 123-132).

`pressed` is the value of `st.button("Get Answer")`, `user_question` the value
of the text input, `invoke` the external `qa_chain.invoke` call returning the
`result` field of the response on success and the exception message on failure,
and `history` the session history list before the run.  The Python code guards
on the truthiness of `user_question` (empty string is falsy), shows
`st.success(response['result'])`, appends `{question, answer}` to the history,
and on any exception shows `st.error(f"Error: {e}")`. -/
def getAnswerHandler (pressed : Bool) (user_question : String)
    (invoke : String → Except String String) (history : List ChatEntry) :
    QAOutput :=
  if pressed then
    if user_question = "" then
      { invokeCalls := [], successBanner := none, errorBanner := none,
        history := history }
    else
      match invoke user_question with
      | Except.ok result =>
        { invokeCalls := [user_question], successBanner := some result,
          errorBanner := none,
          history := history ++ [{ question := user_question, answer := result }] }
      | Except.error e =>
        { invokeCalls := [user_question], successBanner := none,
          errorBanner := some ("Error: " ++ e), history := history }
  else
    { invokeCalls := [], successBanner := none, errorBanner := none,
      history := history }

/-- Observable effects of one run of the commented-out "Fetch Results" button
handler of the raw Cypher tab (app.py lines 137-146): the query strings passed
to `graph.query`, the rows written by `st.write`, and the error banner. -/
structure RawQueryOutput where
  queryCalls : List String
  table : Option (List String)
  errorBanner : Option String
deriving Repr, DecidableEq

/-- The raw-query "Fetch Results" button handler, embedded from the
commented-out Top-K Results tab (app.py lines 137-146): guarded on the
truthiness of `cypher_query`, it calls `graph.query(cypher_query)`, writes the
results, and on exception shows `st.error(f"Error executing Cypher: {e}")`.
Rows are modelled as strings. -/
def fetchResultsHandler (pressed : Bool) (cypher_query : String)
    (graphQuery : String → Except String (List String)) : RawQueryOutput :=
  if pressed then
    if cypher_query = "" then
      { queryCalls := [], table := none, errorBanner := none }
    else
      match graphQuery cypher_query with
      | Except.ok rows =>
        { queryCalls := [cypher_query], table := some rows, errorBanner := none }
      | Except.error e =>
        { queryCalls := [cypher_query], table := none,
          errorBanner := some ("Error executing Cypher: " ++ e) }
  else
    { queryCalls := [], table := none, errorBanner := none }

/-- The labels passed to `st.tabs` (app.py line 108): the raw Cypher tab is not
among them, its whole block being commented out. -/
def tabLabels : List String := ["Home / Q&A", "History"]

/-- What the History tab draws (app.py lines 151-159): the markdown lines, in
order, and the `st.info` message if any. -/
structure HistoryTabOutput where
  lines : List String
  info : Option String
deriving Repr, DecidableEq

/-- The markdown lines the History tab's `for` loop emits for a list of chat
entries, in iteration order (app.py lines 154-157). -/
def renderEntries : List ChatEntry → List String
  | [] => []
  | c :: rest =>
    ("**Q:** " ++ c.question) :: ("**A:** " ++ c.answer) :: "---" :: renderEntries rest

/-- The History tab (app.py lines 151-159): if the history list is truthy
(non-empty) it iterates over `chat_history[::-1]` (the reversed list) emitting
markdown per entry; otherwise it shows `st.info("No history yet.")`. -/
def historyTab (history : List ChatEntry) : HistoryTabOutput :=
  if history = [] then
    { lines := [], info := some "No history yet." }
  else
    { lines := renderEntries history.reverse, info := none }

/-! ## Python `str.format` and the few-shot prompt (app.py lines 35-90)

`PromptTemplate` with the default "f-string" format calls Python's
`str.format` on the template: `\x7b\x7b` renders as a left brace, `\x7d\x7d`
as a right brace, `\x7bname\x7d` substitutes the keyword argument `name`
verbatim, and a stray or unclosed brace, or an unknown name, raises.  The
tokenizer below is structurally recursive so that it evaluates by kernel
reduction. -/

/-- The left brace character. -/
def lbrace : Char := Char.ofNat 123

/-- The right brace character. -/
def rbrace : Char := Char.ofNat 125

/-- One token of a format template: a literal character, a brace produced by
an escape, or a named substitution field. -/
inductive PTok where
  | lit (c : Char)
  | esc (c : Char)
  | var (name : String)
deriving Repr, DecidableEq

/-- Tokenizer for `str.format` templates.  The first argument is `none` in
normal mode and `some acc` while scanning a field name (accumulated reversed).
`none` as result models the `ValueError` Python raises on a stray or unclosed
brace. -/
def tokCore : Option (List Char) → List Char → Option (List PTok)
  | none, [] => some []
  | some _, [] => none
  | none, [c] =>
    if c = lbrace then none
    else if c = rbrace then none
    else some [PTok.lit c]
  | none, c :: c2 :: cs2 =>
    if c = lbrace then
      if c2 = lbrace then (tokCore none cs2).map (fun ts => PTok.esc lbrace :: ts)
      else tokCore (some []) (c2 :: cs2)
    else if c = rbrace then
      if c2 = rbrace then (tokCore none cs2).map (fun ts => PTok.esc rbrace :: ts)
      else none
    else (tokCore none (c2 :: cs2)).map (fun ts => PTok.lit c :: ts)
  | some acc, c :: cs =>
    if c = rbrace then
      (tokCore none cs).map (fun ts => PTok.var (String.mk acc.reverse) :: ts)
    else tokCore (some (c :: acc)) cs

/-- First binding of a name in a keyword-argument list. -/
def lookupVar : List (String × String) → String → Option String
  | [], _ => none
  | (k, v) :: rest, n => if k = n then some v else lookupVar rest n

/-- Renders a token list: literal and escaped characters go through unchanged,
a field substitutes its binding verbatim; `none` models the `KeyError` on a
missing keyword argument. -/
def renderToks (vars : List (String × String)) : List PTok → Option (List Char)
  | [] => some []
  | PTok.lit c :: ts => (renderToks vars ts).map (fun l => c :: l)
  | PTok.esc c :: ts => (renderToks vars ts).map (fun l => c :: l)
  | PTok.var n :: ts =>
    match lookupVar vars n with
    | none => none
    | some v => (renderToks vars ts).map (fun l => v.data ++ l)

/-- Python `template.format(**vars)` for the template fragment of the format
language these prompt templates use. -/
def pyFormat (vars : List (String × String)) (template : String) : Option String :=
  match tokCore none template.data with
  | none => none
  | some ts => (renderToks vars ts).map String.mk

/-- One few-shot example: a `{"question": ..., "query": ...}` dict
(app.py lines 35-64). -/
structure ExamplePair where
  question : String
  query : String
deriving Repr, DecidableEq

/-- The static hand-written example list (app.py lines 35-64).  The query
strings carry the doubled braces of the source verbatim; they are unescaped
only when the assembled template is formatted. -/
def examples : List ExamplePair :=
  [ { question := "How many artists are there?",
      query := "MATCH (a:Person)-[:ACTED_IN]->(:Movie) RETURN count(DISTINCT a)" },
    { question := "Which actors played in the movie Casino?",
      query := "MATCH (m:Movie \x7b\x7btitle: 'Casino'\x7d\x7d)<-[:ACTED_IN]-(a) RETURN a.name" },
    { question := "How many movies has Tom Hanks acted in?",
      query := "MATCH (a:Person \x7b\x7bname: 'Tom Hanks'\x7d\x7d)-[:ACTED_IN]->(m:Movie) RETURN count(m)" },
    { question := "List all the genres of the movie Jumanji",
      query := "MATCH (m:Movie \x7b\x7btitle: 'Jumanji'\x7d\x7d)-[:IN_GENRE]->(g:Genre) RETURN g.name" },
    { question := "Which actors have worked in movies from both the comedy and action genres?",
      query := "MATCH (a:Person)-[:ACTED_IN]->(:Movie)-[:IN_GENRE]->(g1:Genre), (a)-[:ACTED_IN]->(:Movie)-[:IN_GENRE]->(g2:Genre) WHERE g1.name = 'Comedy' AND g2.name = 'Action' RETURN DISTINCT a.name" },
    { question := "Identify movies where directors also played a role in the film.",
      query := "MATCH (p:Person)-[:DIRECTED]->(m:Movie), (p)-[:ACTED_IN]->(m) RETURN m.title, p.name" },
    { question := "Find the actor with the highest number of movies in the database.",
      query := "MATCH (a:Person)-[:ACTED_IN]->(m:Movie) RETURN a.name, COUNT(m) AS movieCount ORDER BY movieCount DESC LIMIT 1" } ]

/-- The per-example template of `example_prompt` (app.py lines 66-68). -/
def examplePromptTemplate : String :=
  "User input:\x7bquestion\x7d\n Cypher query:\x7bquery\x7d"

/-- `example_prompt.format(**example)`: the first-stage formatting of one
example.  The values are substituted verbatim, so doubled braces in the query
survive this stage. -/
def formatExample (e : ExamplePair) : Option String :=
  pyFormat [("question", e.question), ("query", e.query)] examplePromptTemplate

/-- The fixed instruction text bound to the template's first piece
(the triple-quoted `prefix` string, app.py lines 70-82). -/
def instructionsText : String :=
  "\nYou are a strict Cypher expert.\n\nFollow these rules:\n1. NEVER use SQL keywords like SELECT, GROUP BY, HAVING.\n2. ALWAYS use Cypher syntax: MATCH, WHERE, RETURN, ORDER BY, LIMIT.\n3. RETURN only Cypher code — no explanations, no comments.\n4. Do not invent properties or labels not present in the schema.\n5. Use pattern:\n   MATCH ...\n   WHERE ...\n   RETURN ...\n"

/-- The `suffix` piece of the `FewShotPromptTemplate` (app.py line 88). -/
def qaSuffix : String := "User input: \x7bquestion\x7d\nCypher query: "

/-- The template `FewShotPromptTemplate.format` assembles before its final
formatting pass: the instruction piece, `example_prompt.format(**e)` for each
of `examples[:5]` (app.py line 85 passes only the first five), and the suffix,
the non-empty pieces joined by the default separator `"\n\n"`. -/
def fewShotTemplate : Option String :=
  match (examples.take 5).mapM formatExample with
  | none => none
  | some exStrs =>
    some (String.intercalate "\n\n"
      ((instructionsText :: (exStrs ++ [qaSuffix])).filter (fun p => p ≠ "")))

/-- The prompt string handed to the LLM for a user question: the assembled
template formatted with `question`, which substitutes the question into the
suffix and unescapes the doubled braces of the example queries. -/
def fewShotFormat (question : String) : Option String :=
  match fewShotTemplate with
  | none => none
  | some tpl => pyFormat [("question", question)] tpl

/-! ## Startup (app.py lines 12-30) -/

/-- How startup can end in the embedding. `envTypeError k` models the
`TypeError` raised by `os.environ[k] = os.getenv(k)` when `os.getenv(k)` is
`None` (`os.environ` refuses non-string values); `ctorError` models an
exception escaping the `Neo4jGraph` or `ChatGroq` constructor; `started`
carries the argument strings the two constructors received. -/
inductive StartupOutcome where
  | envTypeError (key : String)
  | ctorError (msg : String)
  | started (neo4jUrl neo4jUser neo4jPassword groqModel groqKey : String)
deriving Repr, DecidableEq

/-- The four environment variables the script assigns at startup, in program
order (app.py lines 13-16). -/
def envKeys : List String :=
  ["GROQ_API_KEY", "NEO4J_URI", "NEO4J_USERNAME", "NEO4J_PASSWORD"]

/-- Startup of the script (app.py lines 12-30), as a function of the
environment after `load_dotenv()` and of the two external constructors
(`none` = constructor returned normally, `some msg` = it raised).

Lines 13-16 run `os.environ[k] = os.getenv(k)` for the four keys in order;
when a key is absent `os.getenv` returns `None` and the assignment raises a
`TypeError`, aborting startup before any constructor runs.  Otherwise line 21
constructs `Neo4jGraph` from the URI/username/password and lines 27-30
construct `ChatGroq` with model `"llama-3.1-8b-instant"` and the API key, each
value read back with `os.getenv` (unchanged by the assignments). -/
def startup (getenv : String → Option String)
    (neo4jInit : String → String → String → Option String)
    (groqInit : String → String → Option String) : StartupOutcome :=
  match getenv "GROQ_API_KEY" with
  | none => StartupOutcome.envTypeError "GROQ_API_KEY"
  | some gk =>
    match getenv "NEO4J_URI" with
    | none => StartupOutcome.envTypeError "NEO4J_URI"
    | some uri =>
      match getenv "NEO4J_USERNAME" with
      | none => StartupOutcome.envTypeError "NEO4J_USERNAME"
      | some user =>
        match getenv "NEO4J_PASSWORD" with
        | none => StartupOutcome.envTypeError "NEO4J_PASSWORD"
        | some pw =>
          match neo4jInit uri user pw with
          | some e => StartupOutcome.ctorError e
          | none =>
            match groqInit "llama-3.1-8b-instant" gk with
            | some e => StartupOutcome.ctorError e
            | none => StartupOutcome.started uri user pw "llama-3.1-8b-instant" gk

/-! ## Spec-side prompt description (for the refinement claims)

The spec describes the prompt as "a static, hand-written list of
(question, query) example pairs plus a fixed instruction prefix, concatenated
at request time with the user's question into one prompt string".  The
definitions below build that description literally, so the refinement theorems
can compare it with `fewShotFormat`, which is embedded from the code. -/

/-- Unescaping of doubled braces, the effect template formatting has on a
brace-escaped fragment that contains no substitution fields. -/
def unescapeBraces : List Char → List Char
  | [] => []
  | [c] => [c]
  | c :: c2 :: cs =>
    if c = lbrace then
      if c2 = lbrace then lbrace :: unescapeBraces cs
      else c :: unescapeBraces (c2 :: cs)
    else if c = rbrace then
      if c2 = rbrace then rbrace :: unescapeBraces cs
      else c :: unescapeBraces (c2 :: cs)
    else c :: unescapeBraces (c2 :: cs)

/-- Spec-side rendering of one example pair inside the prompt: the
`example_prompt` line with the pair's texts, queries shown with their braces
unescaped as final formatting leaves them. -/
def specRenderedExample (e : ExamplePair) : String :=
  "User input:" ++ e.question ++ "\n Cypher query:" ++ String.mk (unescapeBraces e.query.data)

/-- Spec-side assembled prompt: instruction text, the given example pairs, and
the user's question, joined exactly as the template pieces are. -/
def specAssembledPrompt (exs : List ExamplePair) (q : String) : String :=
  instructionsText ++ "\n\n"
    ++ String.intercalate "\n\n" (exs.map specRenderedExample)
    ++ "\n\nUser input: " ++ q ++ "\nCypher query: "


/-! ## Tail-friendly comparison helpers -/

/-- Character-list equality, written so that evaluation consumes the lists
one cell at a time. -/
def charListEq : List Char → List Char → Bool
  | [], [] => true
  | a :: as, b :: bs => a == b && charListEq as bs
  | _, [] => false
  | [], _ => false

/-- String equality through `charListEq`. -/
def strEq (a b : String) : Bool := charListEq a.data b.data

lemma charListEq_eq {xs ys : List Char} (h : charListEq xs ys = true) : xs = ys := by
  induction xs generalizing ys with
  | nil =>
    cases ys with
    | nil => rfl
    | cons b bs => simp [charListEq] at h
  | cons a as ih =>
    cases ys with
    | nil => simp [charListEq] at h
    | cons b bs =>
      simp only [charListEq, Bool.and_eq_true, beq_iff_eq] at h
      rw [h.1, ih h.2]

lemma charListEq_refl (xs : List Char) : charListEq xs xs = true := by
  induction xs with
  | nil => rfl
  | cons a as ih => simp [charListEq, ih]

lemma string_data_inj {a b : String} (h : a.data = b.data) : a = b := by
  cases a; cases b; exact congrArg String.mk h

lemma strEq_eq {a b : String} (h : strEq a b = true) : a = b :=
  string_data_inj (charListEq_eq h)

lemma strEq_false_ne {a b : String} (h : strEq a b = false) : a ≠ b := by
  intro he
  subst he
  rw [strEq, charListEq_refl] at h
  cases h

lemma string_data_append (a b : String) : (a ++ b).data = a.data ++ b.data := by
  cases a; cases b; rfl

/-! ## The assembled template, in chunks

The literals below are the assembled few-shot template (and its rendered
form) cut into pieces small enough for kernel evaluation; the lemmas after
them glue the pieces back together. -/

def tplChunk1 : String :=
  "\nYou are a strict Cypher expert.\n\nFollow these rules:\n1. NEVER use SQL keywords like SELECT, GROUP BY, HAVING.\n2. ALWAYS use Cypher syntax: MATCH, WHERE, RETURN, ORDER BY, LIMIT.\n3. RETURN only Cypher code — no explanations, no comments.\n4. Do not invent properties or labels not present in the schema.\n5. Use pattern:\n   MATCH ...\n   WHERE ...\n   RETURN ...\n\n\nUser input:How many artists are there?\n Cypher query:MATCH (a:Person)-[:ACTED_IN]->(:Movie) RETURN count(DISTINCT a)\n\n"

def tplChunk2 : String :=
  "User input:Which actors played in the movie Casino?\n Cypher query:MATCH (m:Movie \x7b\x7btitle: 'Casino'\x7d\x7d)<-[:ACTED_IN]-(a) RETURN a.name\n\nUser input:How many movies has Tom Hanks acted in?\n Cypher query:MATCH (a:Person \x7b\x7bname: 'Tom Hanks'\x7d\x7d)-[:ACTED_IN]->(m:Movie) RETURN count(m)\n\n"

def tplChunk3 : String :=
  "User input:List all the genres of the movie Jumanji\n Cypher query:MATCH (m:Movie \x7b\x7btitle: 'Jumanji'\x7d\x7d)-[:IN_GENRE]->(g:Genre) RETURN g.name\n\n"

def tplChunk4 : String :=
  "User input:Which actors have worked in movies from both the comedy and action genres?\n Cypher query:MATCH (a:Person)-[:ACTED_IN]->(:Movie)-[:IN_GENRE]->(g1:Genre), (a)-[:ACTED_IN]->(:Movie)-[:IN_GENRE]->(g2:Genre) WHERE g1.name = 'Comedy' AND g2.name = 'Action' RETURN DISTINCT a.name\n\n"

def rendChunk1 : String :=
  "\nYou are a strict Cypher expert.\n\nFollow these rules:\n1. NEVER use SQL keywords like SELECT, GROUP BY, HAVING.\n2. ALWAYS use Cypher syntax: MATCH, WHERE, RETURN, ORDER BY, LIMIT.\n3. RETURN only Cypher code — no explanations, no comments.\n4. Do not invent properties or labels not present in the schema.\n5. Use pattern:\n   MATCH ...\n   WHERE ...\n   RETURN ...\n\n\nUser input:How many artists are there?\n Cypher query:MATCH (a:Person)-[:ACTED_IN]->(:Movie) RETURN count(DISTINCT a)\n\n"

def rendChunk2 : String :=
  "User input:Which actors played in the movie Casino?\n Cypher query:MATCH (m:Movie \x7btitle: 'Casino'\x7d)<-[:ACTED_IN]-(a) RETURN a.name\n\nUser input:How many movies has Tom Hanks acted in?\n Cypher query:MATCH (a:Person \x7bname: 'Tom Hanks'\x7d)-[:ACTED_IN]->(m:Movie) RETURN count(m)\n\n"

def rendChunk3 : String :=
  "User input:List all the genres of the movie Jumanji\n Cypher query:MATCH (m:Movie \x7btitle: 'Jumanji'\x7d)-[:IN_GENRE]->(g:Genre) RETURN g.name\n\n"

def rendChunk4 : String :=
  "User input:Which actors have worked in movies from both the comedy and action genres?\n Cypher query:MATCH (a:Person)-[:ACTED_IN]->(:Movie)-[:IN_GENRE]->(g1:Genre), (a)-[:ACTED_IN]->(:Movie)-[:IN_GENRE]->(g2:Genre) WHERE g1.name = 'Comedy' AND g2.name = 'Action' RETURN DISTINCT a.name\n\n"

/-- The fixed text of the assembled prompt before the user's question. -/
def fsHeadStr : String :=
  rendChunk1 ++ (rendChunk2 ++ (rendChunk3 ++ (rendChunk4 ++ "User input: ")))

/-- The fixed text of the assembled prompt after the user's question. -/
def fsTailStr : String := "\nCypher query: "

def tokChunk1 : List PTok := (tokCore none tplChunk1.data).getD []

def tokChunk2 : List PTok := (tokCore none tplChunk2.data).getD []

def tokChunk3 : List PTok := (tokCore none tplChunk3.data).getD []

def tokChunk4 : List PTok := (tokCore none tplChunk4.data).getD []

def sufPreToks : List PTok := (tokCore none ("User input: " : String).data).getD []

def sufPostToks : List PTok := (tokCore none fsTailStr.data).getD []

/-- The token list of the whole assembled template. -/
def fsToks : List PTok :=
  tokChunk1 ++ (tokChunk2 ++ (tokChunk3 ++ (tokChunk4
    ++ (sufPreToks ++ PTok.var "question" :: sufPostToks))))

/-! ## Formatter lemmas -/

/-- Whether a token is a substitution field. -/
def isVarTok : PTok → Bool
  | PTok.var _ => true
  | PTok.lit _ => false
  | PTok.esc _ => false

lemma renderToks_append (vars : List (String × String)) (ts1 ts2 : List PTok) :
    renderToks vars (ts1 ++ ts2)
      = (renderToks vars ts1).bind
          (fun a => (renderToks vars ts2).map (fun b => a ++ b)) := by
  induction ts1 with
  | nil =>
    simp only [List.nil_append, renderToks, Option.some_bind]
    cases renderToks vars ts2 <;> simp
  | cons t ts ih =>
    cases t with
    | lit c =>
      simp only [List.cons_append, renderToks, List.append_eq]
      rw [ih]
      cases h1 : renderToks vars ts <;> cases h2 : renderToks vars ts2 <;> simp
    | esc c =>
      simp only [List.cons_append, renderToks, List.append_eq]
      rw [ih]
      cases h1 : renderToks vars ts <;> cases h2 : renderToks vars ts2 <;> simp
    | var n =>
      simp only [List.cons_append, renderToks, List.append_eq]
      cases hl : lookupVar vars n with
      | none => simp
      | some v =>
        simp only []
        rw [ih]
        cases h1 : renderToks vars ts <;> cases h2 : renderToks vars ts2 <;>
          simp [List.append_assoc]

/-- A token list with no substitution field renders the same under any
bindings. -/
lemma renderToks_noVar (vars : List (String × String)) (ts : List PTok)
    (h : ts.all (fun t => !isVarTok t) = true) :
    renderToks vars ts = renderToks [] ts := by
  induction ts with
  | nil => rfl
  | cons t ts ih =>
    simp only [List.all_cons, Bool.and_eq_true] at h
    cases t with
    | lit c => simp [renderToks, ih h.2]
    | esc c => simp [renderToks, ih h.2]
    | var n => simp [isVarTok] at h

/-- Tokenization of an appended template factors through its pieces, as long
as the first piece tokenizes on its own. -/
lemma tokCore_append : ∀ (mode : Option (List Char)) (xs ys : List Char)
    (ts1 : List PTok), tokCore mode xs = some ts1 →
    tokCore mode (xs ++ ys) = (tokCore none ys).map (fun ts2 => ts1 ++ ts2)
  | none, [], ys, ts1, h => by
    have hts : ts1 = [] := by simpa [tokCore] using h.symm
    subst hts
    simp only [List.nil_append]
    cases h2 : tokCore none ys <;> simp [h2]
  | some acc, [], ys, ts1, h => by
    simp [tokCore] at h
  | none, [c], ys, ts1, h => by
    by_cases h1 : c = lbrace
    · simp [tokCore, h1] at h
    · by_cases h2 : c = rbrace
      · simp [tokCore, h1, h2] at h
      · have hts : ts1 = [PTok.lit c] := by
          rw [tokCore.eq_3, if_neg h1, if_neg h2] at h
          exact (Option.some.inj h).symm
        subst hts
        cases ys with
        | nil => simp [tokCore, h1, h2]
        | cons y ys2 =>
          simp only [List.singleton_append]
          rw [tokCore.eq_4, if_neg h1, if_neg h2]
  | none, c :: c2 :: cs2, ys, ts1, h => by
    by_cases h1 : c = lbrace
    · by_cases h2 : c2 = lbrace
      · rw [tokCore.eq_4] at h
        rw [if_pos h1, if_pos h2] at h
        rw [Option.map_eq_some'] at h
        obtain ⟨ts', hts', rfl⟩ := h
        simp only [List.cons_append]
        rw [tokCore.eq_4, if_pos h1, if_pos h2]
        rw [tokCore_append none cs2 ys ts' hts']
        cases h3 : tokCore none ys <;> simp [h3]
      · rw [tokCore.eq_4, if_pos h1, if_neg h2] at h
        simp only [List.cons_append]
        rw [tokCore.eq_4, if_pos h1, if_neg h2]
        have := tokCore_append (some []) (c2 :: cs2) ys ts1 h
        simpa [List.cons_append] using this
    · by_cases h2 : c = rbrace
      · by_cases h3 : c2 = rbrace
        · rw [tokCore.eq_4, if_neg h1, if_pos h2, if_pos h3] at h
          rw [Option.map_eq_some'] at h
          obtain ⟨ts', hts', rfl⟩ := h
          simp only [List.cons_append]
          rw [tokCore.eq_4, if_neg h1, if_pos h2, if_pos h3]
          rw [tokCore_append none cs2 ys ts' hts']
          cases h4 : tokCore none ys <;> simp [h4]
        · rw [tokCore.eq_4, if_neg h1, if_pos h2, if_neg h3] at h
          cases h
      · rw [tokCore.eq_4, if_neg h1, if_neg h2] at h
        rw [Option.map_eq_some'] at h
        obtain ⟨ts', hts', rfl⟩ := h
        simp only [List.cons_append]
        rw [tokCore.eq_4, if_neg h1, if_neg h2]
        have := tokCore_append none (c2 :: cs2) ys ts' hts'
        rw [List.cons_append] at this
        rw [this]
        cases h4 : tokCore none ys <;> simp [h4]
  | some acc, c :: cs, ys, ts1, h => by
    by_cases h1 : c = rbrace
    · rw [tokCore.eq_5, if_pos h1] at h
      rw [Option.map_eq_some'] at h
      obtain ⟨ts', hts', rfl⟩ := h
      simp only [List.cons_append]
      rw [tokCore.eq_5, if_pos h1]
      rw [tokCore_append none cs ys ts' hts']
      cases h3 : tokCore none ys <;> simp [h3]
    · rw [tokCore.eq_5, if_neg h1] at h
      simp only [List.cons_append]
      rw [tokCore.eq_5, if_neg h1]
      exact tokCore_append (some (c :: acc)) cs ys ts1 h
termination_by mode xs _ _ _ => xs.length

/-! ## Evaluated facts about the chunks -/

set_option maxRecDepth 3500 in
lemma tok_chunk1 : tokCore none tplChunk1.data = some tokChunk1 := by decide

set_option maxRecDepth 3500 in
lemma tok_chunk2 : tokCore none tplChunk2.data = some tokChunk2 := by decide

set_option maxRecDepth 3500 in
lemma tok_chunk3 : tokCore none tplChunk3.data = some tokChunk3 := by decide

set_option maxRecDepth 3500 in
lemma tok_chunk4 : tokCore none tplChunk4.data = some tokChunk4 := by decide

set_option maxRecDepth 3500 in
lemma tok_suffix :
    tokCore none qaSuffix.data
      = some (sufPreToks ++ PTok.var "question" :: sufPostToks) := by decide

set_option maxRecDepth 3500 in
lemma novar_chunk1 : tokChunk1.all (fun t => !isVarTok t) = true := by decide

set_option maxRecDepth 3500 in
lemma novar_chunk2 : tokChunk2.all (fun t => !isVarTok t) = true := by decide

set_option maxRecDepth 3500 in
lemma novar_chunk3 : tokChunk3.all (fun t => !isVarTok t) = true := by decide

set_option maxRecDepth 3500 in
lemma novar_chunk4 : tokChunk4.all (fun t => !isVarTok t) = true := by decide

set_option maxRecDepth 3500 in
lemma novar_sufPre : sufPreToks.all (fun t => !isVarTok t) = true := by decide

set_option maxRecDepth 3500 in
lemma novar_sufPost : sufPostToks.all (fun t => !isVarTok t) = true := by decide

set_option maxRecDepth 3500 in
lemma rend_chunk1 : renderToks [] tokChunk1 = some rendChunk1.data := by decide

set_option maxRecDepth 3500 in
lemma rend_chunk2 : renderToks [] tokChunk2 = some rendChunk2.data := by decide

set_option maxRecDepth 3500 in
lemma rend_chunk3 : renderToks [] tokChunk3 = some rendChunk3.data := by decide

set_option maxRecDepth 3500 in
lemma rend_chunk4 : renderToks [] tokChunk4 = some rendChunk4.data := by decide

set_option maxRecDepth 3500 in
lemma rend_sufPre :
    renderToks [] sufPreToks = some ("User input: " : String).data := by decide

set_option maxRecDepth 3500 in
lemma rend_sufPost : renderToks [] sufPostToks = some fsTailStr.data := by decide

set_option maxRecDepth 3500 in
/-- The template the code assembles equals the concatenation of the chunk
literals. -/
lemma fewShotTemplate_eq :
    fewShotTemplate
      = some (tplChunk1 ++ (tplChunk2 ++ (tplChunk3 ++ (tplChunk4 ++ qaSuffix)))) := by
  have h : fewShotTemplate.map
      (fun t => strEq t (tplChunk1 ++ (tplChunk2 ++ (tplChunk3 ++ (tplChunk4 ++ qaSuffix)))))
      = some true := by decide
  cases hft : fewShotTemplate with
  | none => rw [hft] at h; cases h
  | some t =>
    rw [hft] at h
    simp only [Option.map_some'] at h
    exact congrArg some (strEq_eq (Option.some.inj h))

/-- Tokenization of the whole assembled template. -/
lemma tok_template :
    tokCore none (tplChunk1 ++ (tplChunk2 ++ (tplChunk3 ++ (tplChunk4 ++ qaSuffix)))).data
      = some fsToks := by
  have e : (tplChunk1 ++ (tplChunk2 ++ (tplChunk3 ++ (tplChunk4 ++ qaSuffix)))).data
      = tplChunk1.data ++ (tplChunk2.data ++ (tplChunk3.data
          ++ (tplChunk4.data ++ qaSuffix.data))) := by
    simp only [string_data_append]
  rw [e]
  rw [tokCore_append none _ _ _ tok_chunk1]
  rw [tokCore_append none _ _ _ tok_chunk2]
  rw [tokCore_append none _ _ _ tok_chunk3]
  rw [tokCore_append none _ _ _ tok_chunk4]
  rw [tok_suffix]
  rfl

/-- Rendering of the whole token list, with the question substituted. -/
lemma renderToks_fsToks (q : String) :
    renderToks [("question", q)] fsToks
      = some (rendChunk1.data ++ (rendChunk2.data ++ (rendChunk3.data
          ++ (rendChunk4.data
            ++ (("User input: " : String).data ++ (q.data ++ fsTailStr.data)))))) := by
  have hl : lookupVar [("question", q)] "question" = some q := by
    simp [lookupVar]
  have hv : renderToks [("question", q)] (PTok.var "question" :: sufPostToks)
      = some (q.data ++ fsTailStr.data) := by
    simp [renderToks, hl, renderToks_noVar [("question", q)] sufPostToks novar_sufPost,
      rend_sufPost, fsTailStr]
  have r5 : renderToks [("question", q)]
      (sufPreToks ++ PTok.var "question" :: sufPostToks)
      = some (("User input: " : String).data ++ (q.data ++ fsTailStr.data)) := by
    rw [renderToks_append, renderToks_noVar _ _ novar_sufPre, rend_sufPre, hv]
    rfl
  have r4 : renderToks [("question", q)]
      (tokChunk4 ++ (sufPreToks ++ PTok.var "question" :: sufPostToks))
      = some (rendChunk4.data
          ++ (("User input: " : String).data ++ (q.data ++ fsTailStr.data))) := by
    rw [renderToks_append, renderToks_noVar _ _ novar_chunk4, rend_chunk4, r5]
    rfl
  have r3 : renderToks [("question", q)]
      (tokChunk3 ++ (tokChunk4 ++ (sufPreToks ++ PTok.var "question" :: sufPostToks)))
      = some (rendChunk3.data ++ (rendChunk4.data
          ++ (("User input: " : String).data ++ (q.data ++ fsTailStr.data)))) := by
    rw [renderToks_append, renderToks_noVar _ _ novar_chunk3, rend_chunk3, r4]
    rfl
  have r2 : renderToks [("question", q)]
      (tokChunk2 ++ (tokChunk3 ++ (tokChunk4
        ++ (sufPreToks ++ PTok.var "question" :: sufPostToks))))
      = some (rendChunk2.data ++ (rendChunk3.data ++ (rendChunk4.data
          ++ (("User input: " : String).data ++ (q.data ++ fsTailStr.data))))) := by
    rw [renderToks_append, renderToks_noVar _ _ novar_chunk2, rend_chunk2, r3]
    rfl
  unfold fsToks
  rw [renderToks_append, renderToks_noVar _ _ novar_chunk1, rend_chunk1, r2]
  rfl

/-- The assembled prompt is a fixed head, then the user's question verbatim,
then a fixed tail.  This is the engine behind the prompt claims. -/
lemma fewShotFormat_eq (q : String) :
    fewShotFormat q = some (fsHeadStr ++ q ++ fsTailStr) := by
  unfold fewShotFormat
  rw [fewShotTemplate_eq]
  show pyFormat [("question", q)]
      (tplChunk1 ++ (tplChunk2 ++ (tplChunk3 ++ (tplChunk4 ++ qaSuffix)))) = _
  unfold pyFormat
  rw [tok_template]
  show (renderToks [("question", q)] fsToks).map String.mk
    = some (fsHeadStr ++ q ++ fsTailStr)
  rw [renderToks_fsToks]
  refine congrArg some (string_data_inj ?_)
  show rendChunk1.data ++ (rendChunk2.data ++ (rendChunk3.data ++ (rendChunk4.data
      ++ (("User input: " : String).data ++ (q.data ++ fsTailStr.data)))))
    = (fsHeadStr ++ q ++ fsTailStr).data
  simp [fsHeadStr, string_data_append, List.append_assoc]

set_option maxRecDepth 3500 in
/-- The spec-side assembly over the first five example pairs is exactly the
head-question-tail shape of the code's prompt. -/
lemma specAssembledPrompt_take5 (q : String) :
    specAssembledPrompt (examples.take 5) q = fsHeadStr ++ q ++ fsTailStr := by
  have hA : instructionsText ++ "\n\n"
      ++ String.intercalate "\n\n" ((examples.take 5).map specRenderedExample)
      ++ "\n\nUser input: " = fsHeadStr := strEq_eq (by decide)
  show instructionsText ++ "\n\n"
      ++ String.intercalate "\n\n" ((examples.take 5).map specRenderedExample)
      ++ "\n\nUser input: " ++ q ++ "\nCypher query: " = _
  rw [hA]
  rfl

/-! ## Substring search -/

/-- Whether the second list is a prefix of the first. -/
def beginsWith : List Char → List Char → Bool
  | _, [] => true
  | [], _ :: _ => false
  | a :: as, b :: bs => a == b && beginsWith as bs

/-- Whether the second list occurs contiguously inside the first. -/
def hasSub : List Char → List Char → Bool
  | [], needle => needle.isEmpty
  | a :: as, needle => beginsWith (a :: as) needle || hasSub as needle

lemma beginsWith_nil (xs : List Char) : beginsWith xs [] = true := by
  cases xs <;> rfl

lemma beginsWith_append (xs ys n : List Char) (h : beginsWith xs n = true) :
    beginsWith (xs ++ ys) n = true := by
  induction n generalizing xs with
  | nil => exact beginsWith_nil (xs ++ ys)
  | cons b bs ih =>
    cases xs with
    | nil => cases h
    | cons a as =>
      simp only [beginsWith, Bool.and_eq_true] at h
      simp only [List.cons_append, beginsWith, Bool.and_eq_true]
      exact ⟨h.1, ih as h.2⟩

lemma hasSub_nil_needle (ys : List Char) : hasSub ys [] = true := by
  cases ys <;> rfl

lemma hasSub_append_left (xs ys n : List Char) (h : hasSub xs n = true) :
    hasSub (xs ++ ys) n = true := by
  induction xs with
  | nil =>
    cases n with
    | nil => exact hasSub_nil_needle ys
    | cons b bs => cases h
  | cons a as ih =>
    simp only [hasSub, Bool.or_eq_true] at h
    rcases h with h | h
    · simp only [List.cons_append, hasSub, Bool.or_eq_true]
      exact Or.inl (beginsWith_append (a :: as) ys n h)
    · simp only [List.cons_append, hasSub, Bool.or_eq_true]
      exact Or.inr (ih h)

/-! ## Claims -/

/-- C1: For every successful answer (the QA chain invocation returns without
raising), exactly one chat entry `{question, answer}` is appended to the
session history list, entries appear in submission order (the new entry goes
at the end), and the History tab renders the list in reverse of insertion
order: the newest entry's lines come first. -/
theorem history_grows_by_one_and_renders_reversed
    (q r : String) (invoke : String → Except String String) (h : List ChatEntry)
    (hq : q ≠ "") (hr : invoke q = Except.ok r) :
    (getAnswerHandler true q invoke h).history
        = h ++ [{ question := q, answer := r }]
    ∧ historyTab (getAnswerHandler true q invoke h).history
        = { lines := ("**Q:** " ++ q) :: ("**A:** " ++ r) :: "---"
              :: renderEntries h.reverse,
            info := none } := by
  have hh : (getAnswerHandler true q invoke h).history
      = h ++ [{ question := q, answer := r }] := by
    simp [getAnswerHandler, hq, hr]
  refine ⟨hh, ?_⟩
  rw [hh]
  simp [historyTab, List.reverse_append, renderEntries]

/-- Witness for `history_grows_by_one_and_renders_reversed` at a concrete
input. -/
theorem history_grows_by_one_and_renders_reversed_witness :
    (getAnswerHandler true "hi" (fun _ => Except.ok "ans") []).history
        = [] ++ [{ question := "hi", answer := "ans" }]
    ∧ historyTab (getAnswerHandler true "hi" (fun _ => Except.ok "ans") []).history
        = { lines := ("**Q:** " ++ "hi") :: ("**A:** " ++ "ans") :: "---"
              :: renderEntries ([] : List ChatEntry).reverse,
            info := none } :=
  history_grows_by_one_and_renders_reversed "hi" "ans" (fun _ => Except.ok "ans")
    [] (by decide) rfl

/-- C2 counterexample: when the chain's invocation succeeds with result `""`,
the handler shows a success banner whose text is empty and no error banner, so
"a success banner containing non-empty answer text or an error banner" fails
at this input. -/
theorem nonempty_banner_claim_fails_on_empty_result :
    ¬ ((∃ s, (getAnswerHandler true "hi" (fun _ => Except.ok "") []).successBanner
            = some s ∧ s ≠ "")
        ∨ ((getAnswerHandler true "hi" (fun _ => Except.ok "") []).errorBanner).isSome
            = true) := by
  intro hc
  rcases hc with ⟨s, hs, hne⟩ | hb
  · have h0 : (getAnswerHandler true "hi" (fun _ => Except.ok "") []).successBanner
        = some "" := rfl
    rw [h0] at hs
    exact hne (Option.some.inj hs).symm
  · have h1 : (getAnswerHandler true "hi" (fun _ => Except.ok "") []).errorBanner
        = none := rfl
    rw [h1] at hb
    simp at hb

/-- C2 (amended): for every non-empty question, pressing the submit button
produces either a success banner (whose text is exactly the chain's answer,
possibly empty) or an error banner — never neither. -/
theorem submit_nonempty_always_shows_banner
    (q : String) (invoke : String → Except String String) (h : List ChatEntry)
    (hq : q ≠ "") :
    (((getAnswerHandler true q invoke h).successBanner).isSome = true
      ∨ ((getAnswerHandler true q invoke h).errorBanner).isSome = true)
    ∧ (∀ s, (getAnswerHandler true q invoke h).successBanner = some s
        → invoke q = Except.ok s) := by
  cases hr : invoke q with
  | ok r =>
    constructor
    · left
      simp [getAnswerHandler, hq, hr]
    · intro s hs
      simp [getAnswerHandler, hq, hr] at hs
      rw [hs]
  | error e =>
    constructor
    · right
      simp [getAnswerHandler, hq, hr]
    · intro s hs
      simp [getAnswerHandler, hq, hr] at hs

/-- Witness for `submit_nonempty_always_shows_banner` at a concrete input. -/
theorem submit_nonempty_always_shows_banner_witness :
    (((getAnswerHandler true "hi" (fun _ => Except.ok "42") []).successBanner).isSome
          = true
      ∨ ((getAnswerHandler true "hi" (fun _ => Except.ok "42") []).errorBanner).isSome
          = true)
    ∧ (∀ s, (getAnswerHandler true "hi" (fun _ => Except.ok "42") []).successBanner
          = some s
        → (fun (_ : String) => Except.ok (ε := String) "42") "hi" = Except.ok s) :=
  submit_nonempty_always_shows_banner "hi" (fun _ => Except.ok "42") [] (by decide)

set_option maxRecDepth 3500 in
/-- C3 counterexample: at question "x" the assembled prompt is not the
concatenation of the instruction text, all seven defined example pairs and the
question — and the sixth pair's question text does not even occur as a
substring of the prompt, so not every defined pair is part of it. -/
theorem prompt_not_all_examples_cex :
    fewShotFormat "x" ≠ some (specAssembledPrompt examples "x")
    ∧ (fewShotFormat "x").map
        (fun p => hasSub p.data
          ("Identify movies where directors also played a role in the film.".data))
      = some false := by
  constructor
  · rw [fewShotFormat_eq]
    intro hc
    exact strEq_false_ne (by decide) (Option.some.inj hc)
  · rw [fewShotFormat_eq]
    simp only [Option.map_some']
    decide

/-- C3 (amended): the few-shot prompt presented to the LLM is the
concatenation, at request time, of the fixed instruction prefix, the FIRST
FIVE example pairs of the defined list (the code passes `examples[:5]` to the
template), and the user's question, as one prompt string. -/
theorem prompt_is_instructions_first_five_examples_question (q : String) :
    fewShotFormat q = some (specAssembledPrompt (examples.take 5) q) := by
  rw [fewShotFormat_eq, specAssembledPrompt_take5]

/-- C4: in the raw-query tab (present in the source only as the commented-out
Top-K Results block), submitting an empty query string never triggers a
query-execution call to the graph client: the handler is guarded on the
truthiness of the query text. -/
theorem empty_raw_query_never_calls_graph
    (pressed : Bool) (graphQuery : String → Except String (List String)) :
    (fetchResultsHandler pressed "" graphQuery).queryCalls = [] := by
  cases pressed <;> rfl

/-- The Tom Hanks example pair, as written in the source (app.py
lines 44-47), braces escaped as in the Python literal. -/
def tomHanksPair : ExamplePair :=
  { question := "How many movies has Tom Hanks acted in?",
    query := "MATCH (a:Person \x7b\x7bname: 'Tom Hanks'\x7d\x7d)-[:ACTED_IN]->(m:Movie) RETURN count(m)" }

/-- The line the assembled prompt carries for the Tom Hanks pair, after final
formatting unescapes the braces. -/
def tomHanksRenderedLine : String :=
  "User input:How many movies has Tom Hanks acted in?\n Cypher query:MATCH (a:Person \x7bname: 'Tom Hanks'\x7d)-[:ACTED_IN]->(m:Movie) RETURN count(m)"

set_option maxRecDepth 3500 in
/-- C5: the static example list contains the Tom Hanks pair; the pair is among
the five examples the template includes; after template formatting (brace
unescaping) its query is exactly the literal
`MATCH (a:Person \x7bname: 'Tom Hanks'\x7d)-[:ACTED_IN]->(m:Movie) RETURN count(m)`;
and for every question the assembled prompt contains the pair's rendered
line. -/
theorem tom_hanks_example_in_prompt (q : String) :
    tomHanksPair ∈ examples
    ∧ tomHanksPair ∈ examples.take 5
    ∧ pyFormat [] tomHanksPair.query
        = some "MATCH (a:Person \x7bname: 'Tom Hanks'\x7d)-[:ACTED_IN]->(m:Movie) RETURN count(m)"
    ∧ ∃ p, fewShotFormat q = some p
        ∧ hasSub p.data tomHanksRenderedLine.data = true := by
  refine ⟨by decide, by decide, by decide,
    fsHeadStr ++ q ++ fsTailStr, fewShotFormat_eq q, ?_⟩
  have h1 : hasSub fsHeadStr.data tomHanksRenderedLine.data = true := by decide
  have h2 := hasSub_append_left fsHeadStr.data q.data tomHanksRenderedLine.data h1
  have h3 := hasSub_append_left (fsHeadStr.data ++ q.data) fsTailStr.data
    tomHanksRenderedLine.data h2
  show hasSub (fsHeadStr ++ q ++ fsTailStr).data tomHanksRenderedLine.data = true
  rw [string_data_append, string_data_append]
  exact h3

/-- C6: when the QA chain invocation raises, the handler displays the
exception message (prefixed with "Error: ", as `f"Error: \x7be\x7d"` does) as
the error banner, shows no success banner, and leaves the session history
unchanged. -/
theorem qa_error_shows_message_and_history_unchanged
    (q e : String) (invoke : String → Except String String) (h : List ChatEntry)
    (hq : q ≠ "") (he : invoke q = Except.error e) :
    (getAnswerHandler true q invoke h).errorBanner = some ("Error: " ++ e)
    ∧ (getAnswerHandler true q invoke h).history = h
    ∧ (getAnswerHandler true q invoke h).successBanner = none := by
  refine ⟨?_, ?_, ?_⟩ <;> simp [getAnswerHandler, hq, he]

/-- Witness for `qa_error_shows_message_and_history_unchanged` at a concrete
input. -/
theorem qa_error_shows_message_and_history_unchanged_witness :
    (getAnswerHandler true "hi" (fun _ => Except.error "boom")
        [{ question := "a", answer := "b" }]).errorBanner
      = some ("Error: " ++ "boom")
    ∧ (getAnswerHandler true "hi" (fun _ => Except.error "boom")
        [{ question := "a", answer := "b" }]).history
      = [{ question := "a", answer := "b" }]
    ∧ (getAnswerHandler true "hi" (fun _ => Except.error "boom")
        [{ question := "a", answer := "b" }]).successBanner = none :=
  qa_error_shows_message_and_history_unchanged "hi" "boom"
    (fun _ => Except.error "boom") [{ question := "a", answer := "b" }]
    (by decide) rfl

/-- C7: the session history is append-only for the process lifetime: any run
of the Get Answer handler (the only user-triggered operation that writes the
list) leaves the previous list as a prefix and appends at most one entry — no
entry is mutated, deleted or reordered; the History tab (`historyTab`) is a
pure function of the list and returns it unchanged to the caller. -/
theorem history_append_only
    (pressed : Bool) (q : String) (invoke : String → Except String String)
    (h : List ChatEntry) :
    ∃ tl, (getAnswerHandler pressed q invoke h).history = h ++ tl
      ∧ tl.length ≤ 1 := by
  cases pressed with
  | false => exact ⟨[], by simp [getAnswerHandler], by simp⟩
  | true =>
    by_cases hq : q = ""
    · exact ⟨[], by simp [getAnswerHandler, hq], by simp⟩
    · cases hr : invoke q with
      | ok r =>
        exact ⟨[{ question := q, answer := r }],
          by simp [getAnswerHandler, hq, hr], by simp⟩
      | error e => exact ⟨[], by simp [getAnswerHandler, hq, hr], by simp⟩

/-- C8 counterexample: with GROQ_API_KEY absent and both client constructors
returning normally, startup ends with the TypeError of the `os.environ`
assignment on line 13, not with a constructor failure — so the failure is not
"via the underlying client constructors". -/
theorem missing_env_fails_before_constructors_cex :
    startup (fun k => if k = "GROQ_API_KEY" then none else some "v")
        (fun _ _ _ => none) (fun _ _ => none)
      = StartupOutcome.envTypeError "GROQ_API_KEY"
    ∧ ∀ m, startup (fun k => if k = "GROQ_API_KEY" then none else some "v")
        (fun _ _ _ => none) (fun _ _ => none) ≠ StartupOutcome.ctorError m := by
  have h0 : startup (fun k => if k = "GROQ_API_KEY" then none else some "v")
      (fun _ _ _ => none) (fun _ _ => none)
      = StartupOutcome.envTypeError "GROQ_API_KEY" := by decide
  refine ⟨h0, fun m hm => ?_⟩
  rw [h0] at hm
  cases hm

/-- C8 (amended): if any of the four environment variables GROQ_API_KEY,
NEO4J_URI, NEO4J_USERNAME, NEO4J_PASSWORD is absent, the process fails at
startup — via the TypeError raised when the `os.environ[...]` assignment
receives None, before any client constructor runs — and no default value is
substituted: a startup that reaches the constructors hands them exactly the
environment's values. -/
theorem missing_env_fails_at_assignment
    (getenv : String → Option String)
    (neo4jInit : String → String → String → Option String)
    (groqInit : String → String → Option String) :
    ((∃ k, k ∈ envKeys ∧ getenv k = none)
      → ∃ k, k ∈ envKeys ∧ getenv k = none
          ∧ startup getenv neo4jInit groqInit = StartupOutcome.envTypeError k)
    ∧ (∀ uri user pw model gk,
        startup getenv neo4jInit groqInit
            = StartupOutcome.started uri user pw model gk
        → getenv "NEO4J_URI" = some uri ∧ getenv "NEO4J_USERNAME" = some user
          ∧ getenv "NEO4J_PASSWORD" = some pw ∧ model = "llama-3.1-8b-instant"
          ∧ getenv "GROQ_API_KEY" = some gk) := by
  constructor
  · rintro ⟨k, hk, hnone⟩
    cases h1 : getenv "GROQ_API_KEY" with
    | none =>
      exact ⟨"GROQ_API_KEY", by simp [envKeys], h1, by simp [startup, h1]⟩
    | some gk =>
      cases h2 : getenv "NEO4J_URI" with
      | none =>
        exact ⟨"NEO4J_URI", by simp [envKeys], h2, by simp [startup, h1, h2]⟩
      | some uri =>
        cases h3 : getenv "NEO4J_USERNAME" with
        | none =>
          exact ⟨"NEO4J_USERNAME", by simp [envKeys], h3,
            by simp [startup, h1, h2, h3]⟩
        | some user =>
          cases h4 : getenv "NEO4J_PASSWORD" with
          | none =>
            exact ⟨"NEO4J_PASSWORD", by simp [envKeys], h4,
              by simp [startup, h1, h2, h3, h4]⟩
          | some pw =>
            exfalso
            simp [envKeys] at hk
            rcases hk with rfl | rfl | rfl | rfl
            · rw [h1] at hnone; cases hnone
            · rw [h2] at hnone; cases hnone
            · rw [h3] at hnone; cases hnone
            · rw [h4] at hnone; cases hnone
  · intro uri user pw model gk hst
    cases h1 : getenv "GROQ_API_KEY" with
    | none => simp [startup, h1] at hst
    | some gk2 =>
      cases h2 : getenv "NEO4J_URI" with
      | none => simp [startup, h1, h2] at hst
      | some uri2 =>
        cases h3 : getenv "NEO4J_USERNAME" with
        | none => simp [startup, h1, h2, h3] at hst
        | some user2 =>
          cases h4 : getenv "NEO4J_PASSWORD" with
          | none => simp [startup, h1, h2, h3, h4] at hst
          | some pw2 =>
            cases h5 : neo4jInit uri2 user2 pw2 with
            | some e => simp [startup, h1, h2, h3, h4, h5] at hst
            | none =>
              cases h6 : groqInit "llama-3.1-8b-instant" gk2 with
              | some e => simp [startup, h1, h2, h3, h4, h5, h6] at hst
              | none =>
                simp only [startup, h1, h2, h3, h4, h5, h6,
                  StartupOutcome.started.injEq] at hst
                rcases hst with ⟨rfl, rfl, rfl, rfl, rfl⟩
                exact ⟨rfl, rfl, rfl, rfl, rfl⟩

/-- Witness for `missing_env_fails_at_assignment`: with NEO4J_PASSWORD absent
and constructors that return normally, startup ends in an assignment
TypeError for one of the four keys. -/
theorem missing_env_fails_at_assignment_witness :
    ∃ k, k ∈ envKeys
      ∧ (fun k => if k = "NEO4J_PASSWORD" then none else some "v") k = none
      ∧ startup (fun k => if k = "NEO4J_PASSWORD" then none else some "v")
          (fun _ _ _ => none) (fun _ _ => none) = StartupOutcome.envTypeError k :=
  (missing_env_fails_at_assignment
      (fun k => if k = "NEO4J_PASSWORD" then none else some "v")
      (fun _ _ _ => none) (fun _ _ => none)).1
    ⟨"NEO4J_PASSWORD", by decide, by decide⟩

/-- C9: pressing Get Answer while the question input is the empty string does
nothing at all: the QA chain is not invoked, no success or error banner is
shown, and the session history is unchanged. -/
theorem empty_question_button_noop
    (invoke : String → Except String String) (h : List ChatEntry) :
    getAnswerHandler true "" invoke h
      = { invokeCalls := [], successBanner := none, errorBanner := none,
          history := h } := rfl

/-- C10: the History tab shows the informational message "No history yet."
and renders no entry lines when the history list is empty; when the list is
non-empty, no such message is shown. -/
theorem history_tab_empty_message
    (h : List ChatEntry) (hne : h ≠ []) :
    historyTab ([] : List ChatEntry)
        = { lines := [], info := some "No history yet." }
    ∧ (historyTab h).info = none := by
  refine ⟨rfl, ?_⟩
  simp [historyTab, hne]

/-- Witness for `history_tab_empty_message` at a concrete input. -/
theorem history_tab_empty_message_witness :
    historyTab ([] : List ChatEntry)
        = { lines := [], info := some "No history yet." }
    ∧ (historyTab [{ question := "q", answer := "a" }]).info = none :=
  history_tab_empty_message [{ question := "q", answer := "a" }] (by decide)

end App
